import Mathlib

/-!
Shallow embedding of the XWayland surface state bridge
(`src/packages/plurix/source/mir-src/server/frontend_xwayland/xwayland_surface.cpp`).

Pure value types (WindowState, MirWindowState) are translated directly.
Stateful methods of `XWaylandSurface` become functions from an explicit
`Bridge` state (the lock-guarded cached fields plus the weak references)
to a new `Bridge` together with a trace of the protocol/shell operations
issued (`Op`).  Calls on the XCB connection and on the shell are recorded
as trace elements; exceptions become an `error` field carrying the state
at the throw point.
-/

namespace XWayland

/-- The compositor's native window-state enumeration (`MirWindowState`),
including the `mir_window_states` count sentinel which the source's
switch statement also handles. -/
inductive MirWindowState where
  | unknown
  | restored
  | minimized
  | maximized
  | vertmaximized
  | fullscreen
  | horizmaximized
  | hidden
  | attached
  | states
deriving DecidableEq, Fintype

/-- Embeds `XWaylandSurface::WindowState`: four booleans. -/
structure WindowState where
  withdrawn : Bool
  minimized : Bool
  maximized : Bool
  fullscreen : Bool
deriving DecidableEq, Fintype

/-- Embeds `WindowState::operator==`: compares all four flags. -/
def WindowState.eq (a b : WindowState) : Bool :=
  a.withdrawn == b.withdrawn &&
  a.minimized == b.minimized &&
  a.maximized == b.maximized &&
  a.fullscreen == b.fullscreen

/-- Embeds `WindowState::mir_window_state`: precedence minimized > fullscreen >
maximized > restored; `withdrawn` is ignored. -/
def WindowState.mir_window_state (s : WindowState) : MirWindowState :=
  if s.minimized then .minimized
  else if s.fullscreen then .fullscreen
  else if s.maximized then .maximized
  else .restored

/-- Embeds `WindowState::updated_from`: clears `withdrawn` and updates the flags
from a compositor-reported state, per the switch in the source. -/
def WindowState.updated_from (s : WindowState) (state : MirWindowState) : WindowState :=
  let updated := { s with withdrawn := false }
  match state with
  | .hidden | .minimized =>
      { updated with minimized := true }
  | .fullscreen =>
      { updated with minimized := false, fullscreen := true }
  | .maximized | .vertmaximized | .horizmaximized =>
      { updated with minimized := false, maximized := true, fullscreen := false }
  | .restored | .unknown | .attached =>
      { updated with minimized := false, maximized := false, fullscreen := false }
  | .states => updated

/-- C1: `updated_from` follows the spec table for every native window
state, leaving the receiver's other flags as the table says, and
`WindowState` equality is structural over all four flags. -/
theorem c1_updated_from_table :
    (∀ ws : WindowState,
      ws.updated_from .hidden = { ws with withdrawn := false, minimized := true } ∧
      ws.updated_from .minimized = { ws with withdrawn := false, minimized := true } ∧
      ws.updated_from .fullscreen =
        { ws with withdrawn := false, minimized := false, fullscreen := true } ∧
      ws.updated_from .maximized =
        { ws with withdrawn := false, minimized := false, maximized := true, fullscreen := false } ∧
      ws.updated_from .vertmaximized =
        { ws with withdrawn := false, minimized := false, maximized := true, fullscreen := false } ∧
      ws.updated_from .horizmaximized =
        { ws with withdrawn := false, minimized := false, maximized := true, fullscreen := false } ∧
      ws.updated_from .restored =
        { ws with withdrawn := false, minimized := false, maximized := false, fullscreen := false } ∧
      ws.updated_from .unknown =
        { ws with withdrawn := false, minimized := false, maximized := false, fullscreen := false } ∧
      ws.updated_from .attached =
        { ws with withdrawn := false, minimized := false, maximized := false, fullscreen := false }) ∧
    (∀ a b : WindowState, WindowState.eq a b = true ↔
      (a.withdrawn = b.withdrawn ∧ a.minimized = b.minimized ∧
       a.maximized = b.maximized ∧ a.fullscreen = b.fullscreen)) := by
  decide

/-- C2: round-trip law — `updated_from` applied to `s.mir_window_state`
restores `s`'s minimized/maximized/fullscreen flags and forces
`withdrawn` to false. -/
theorem c2_round_trip :
    ∀ s : WindowState,
      (s.updated_from s.mir_window_state).minimized = s.minimized ∧
      (s.updated_from s.mir_window_state).maximized = s.maximized ∧
      (s.updated_from s.mir_window_state).fullscreen = s.fullscreen ∧
      (s.updated_from s.mir_window_state).withdrawn = false := by
  decide

/-- Embeds `geometry::Point`. -/
structure Point where
  x : Int
  y : Int
deriving DecidableEq

/-- Embeds `geometry::Size`. -/
structure Size where
  width : Int
  height : Int
deriving DecidableEq

/-- Embeds `geometry::Displacement` (also the result of `as_displacement` and
`content_offset`). -/
structure Displacement where
  dx : Int
  dy : Int
deriving DecidableEq

/-- Embeds `point + displacement`. -/
def Point.addDisp (p : Point) (d : Displacement) : Point :=
  ⟨p.x + d.dx, p.y + d.dy⟩

/-- Embeds `point - displacement`. -/
def Point.subDisp (p : Point) (d : Displacement) : Point :=
  ⟨p.x - d.dx, p.y - d.dy⟩

/-- Embeds `geometry::Rectangle` (used for `aux_rect`). -/
structure Rect where
  top_left : Point
  size : Size
deriving DecidableEq

/-- Embeds `MirPlacementGravity`; only north-west placement is used by this file. -/
inductive Gravity where
  | center
  | northwest
deriving DecidableEq

/-- XCB stack modes used by the bridge. -/
inductive StackMode where
  | above
  | below
deriving DecidableEq

/-- Geometry of a possible parent surface, as read through
`Surface::top_left()` and `Surface::content_offset()`. -/
structure SurfaceInfo where
  top_left : Point
  content_offset : Displacement
deriving DecidableEq

/-- The bridge's view of a live `scene::Surface` (the fields the
translated methods read from it). -/
structure SceneSurface where
  top_left : Point
  content_offset : Displacement
  content_size : Size
  state : MirWindowState
  parent : Option SurfaceInfo
deriving DecidableEq

/-- Embeds `Surface::top_left()`/`content_offset()` of a scene surface, packaged
for `set_position`. -/
def SceneSurface.info (s : SceneSurface) : SurfaceInfo :=
  ⟨s.top_left, s.content_offset⟩

/-- The subset of `shell::SurfaceSpecification` this file touches.
Every field is optional (`is_set`); `parent` is set-to-a-possibly-null
surface, hence doubly optional. -/
structure SurfaceSpec where
  application_id : Option String := none
  name : Option String := none
  parent : Option (Option SceneSurface) := none
  aux_rect : Option Rect := none
  placement_hints : Option Nat := none
  surface_placement_gravity : Option Gravity := none
  aux_rect_placement_gravity : Option Gravity := none
  top_left : Option Point := none
  width : Option Int := none
  height : Option Int := none
  state : Option MirWindowState := none
deriving DecidableEq

/-- A `SurfaceSpecification` with nothing set. -/
def SurfaceSpec.empty : SurfaceSpec := {}

/-- Embeds `SurfaceSpecification::is_empty` restricted to the fields modelled
here. -/
def SurfaceSpec.is_empty (s : SurfaceSpec) : Bool :=
  s.application_id.isNone && s.name.isNone && s.parent.isNone &&
  s.aux_rect.isNone && s.placement_hints.isNone &&
  s.surface_placement_gravity.isNone && s.aux_rect_placement_gravity.isNone &&
  s.top_left.isNone && s.width.isNone && s.height.isNone && s.state.isNone

/-- The atom cache of the `XCBConnection`; atoms are opaque numeric
identifiers fixed at connection setup. -/
structure Connection where
  wm_state : Nat
  net_wm_state : Nat
  net_wm_desktop : Nat
  net_wm_state_hidden : Nat
  net_wm_state_maximized_horz : Nat
  net_wm_state_maximized_vert : Nat
  net_wm_state_fullscreen : Nat
  wm_protocols : Nat
  wm_take_focus : Nat
  wm_delete_window : Nat
  net_wm_name : Nat

/-- Embeds `scene::SurfaceCreationParameters` as filled by `attach_wl_surface`:
geometry and state from the cached fields, plus the consumed pending
specification merged in via `update_from`. -/
structure CreationParams where
  top_left : Point
  size : Size
  state : MirWindowState
  server_side_decorated : Bool
  spec : Option SurfaceSpec
deriving DecidableEq

/-- One operation issued to the XCB connection or to the shell.  The
bridge manages a single window, so the window argument is implicit. -/
inductive Op where
  | set_property_u32 (atom : Nat) (values : List Nat)
  | set_property_atoms (atom : Nat) (values : List Nat)
  | delete_property (atom : Nat)
  | configure_window (pos : Option Point) (size : Option Size)
      (sibling : Option Nat) (stack_mode : Option StackMode)
  | flush
  | map_window
  | unmap_window
  | create_surface (params : CreationParams)
  | modify_surface (spec : SurfaceSpec)
deriving DecidableEq

/-- The lock-guarded `cached` fields of `XWaylandSurface`. -/
structure Cached where
  override_redirect : Bool
  top_left : Point
  size : Size
  supported_wm_protocols : List Nat
  state : WindowState
deriving DecidableEq

/-- The mutable state of one `XWaylandSurface` bridge: the cached fields,
the weak scene-surface reference, the observer and session references,
and the nullable pending specification. -/
structure Bridge where
  cached : Cached
  scene_surface : Option SceneSurface
  has_observer : Bool
  has_session : Bool
  pending_spec : Option SurfaceSpec
deriving DecidableEq

/-- The ICCCM `WM_STATE` code pushed by `inform_client_of_window_state`:
WITHDRAWN = 0, NORMAL = 1, ICONIC = 3. -/
def wm_state_code (s : WindowState) : Nat :=
  if s.withdrawn then 0
  else if s.minimized then 3
  else 1

/-- The `_NET_WM_STATE` atom list built by `inform_client_of_window_state`
for a non-withdrawn state. -/
def net_wm_states_for (conn : Connection) (s : WindowState) : List Nat :=
  (if s.minimized then [conn.net_wm_state_hidden] else []) ++
  (if s.maximized then [conn.net_wm_state_maximized_horz, conn.net_wm_state_maximized_vert] else []) ++
  (if s.fullscreen then [conn.net_wm_state_fullscreen] else [])

/-- Embeds `XWaylandSurface::inform_client_of_window_state`: returns early when
the new state equals the cached state; otherwise stores it, writes the
`WM_STATE` property, writes (or, when withdrawn, deletes) the
`_NET_WM_STATE` property and flushes. -/
def inform_client_of_window_state (conn : Connection) (b : Bridge)
    (new_window_state : WindowState) : Bridge × List Op :=
  if WindowState.eq new_window_state b.cached.state then (b, [])
  else
    ({ b with cached := { b.cached with state := new_window_state } },
     [Op.set_property_u32 conn.wm_state [wm_state_code new_window_state, 0]] ++
     (if new_window_state.withdrawn then
        [Op.delete_property conn.net_wm_state]
      else
        [Op.set_property_atoms conn.net_wm_state (net_wm_states_for conn new_window_state)]) ++
     [Op.flush])

/-- Embeds `XWaylandSurface::request_scene_surface_state`: if a scene surface is
live and its state differs, request a state modification; mutates no
bridge state. -/
def request_scene_surface_state (b : Bridge)
    (new_state : MirWindowState) : List Op :=
  match b.scene_surface with
  | some s =>
      if s.state ≠ new_state then
        [Op.modify_surface { SurfaceSpec.empty with state := some new_state }]
      else []
  | none => []

/-- The action switch body of `net_wm_state_client_message`:
REMOVE = 0 clears, ADD = 1 sets, TOGGLE = 2 flips; an out-of-range action
matches no case of the switch and leaves the flag alone. -/
def apply_action_to (action : Nat) (flag : Bool) : Bool :=
  match action with
  | 0 => false
  | 1 => true
  | 2 => !flag
  | _ => flag

/-- One iteration of the property loop in `net_wm_state_client_message`:
a zero atom is skipped, a recognized atom selects the corresponding flag,
any other atom targets the dummy `nil` flag (no visible effect). -/
def apply_property (conn : Connection) (action : Nat) (ws : WindowState)
    (property : Nat) : WindowState :=
  if property = 0 then ws
  else if property = conn.net_wm_state_hidden then
    { ws with minimized := apply_action_to action ws.minimized }
  else if property = conn.net_wm_state_maximized_horz then
    { ws with maximized := apply_action_to action ws.maximized }
  else if property = conn.net_wm_state_fullscreen then
    { ws with fullscreen := apply_action_to action ws.fullscreen }
  else ws

/-- Embeds `XWaylandSurface::net_wm_state_client_message`: decodes
(action, property, property) from the message data, applies the action to
each targeted flag, then pushes the result to the client and the scene
graph. -/
def net_wm_state_client_message (conn : Connection) (b : Bridge)
    (action prop1 prop2 : Nat) : Bridge × List Op :=
  let new_window_state :=
    apply_property conn action (apply_property conn action b.cached.state prop1) prop2
  let r1 := inform_client_of_window_state conn b new_window_state
  (r1.1, r1.2 ++ request_scene_surface_state r1.1 new_window_state.mir_window_state)

/-- Result of a bridge operation that can throw: the bridge state at
return (or at the throw point), the operations issued, and the error. -/
structure OpResult where
  bridge : Bridge
  ops : List Op
  error : Option String
deriving DecidableEq

/-- Embeds `XWaylandSurface::wm_change_state_client_message`: NORMAL (1) clears
minimized, ICONIC (3) sets it, anything else throws before any member
state is touched. -/
def wm_change_state_client_message (conn : Connection) (b : Bridge)
    (data0 : Nat) : OpResult :=
  if data0 = 1 then
    let new := { b.cached.state with minimized := false }
    let r1 := inform_client_of_window_state conn b new
    ⟨r1.1, r1.2 ++ request_scene_surface_state r1.1 new.mir_window_state, none⟩
  else if data0 = 3 then
    let new := { b.cached.state with minimized := true }
    let r1 := inform_client_of_window_state conn b new
    ⟨r1.1, r1.2 ++ request_scene_surface_state r1.1 new.mir_window_state, none⟩
  else
    ⟨b, [], some ("WM_CHANGE_STATE client message sent invalid state")⟩

/-- Embeds `XWaylandSurface::scene_surface_state_set`.  The stacking-order
condition mirrors the source verbatim, which tests
`new_state == mir_window_state_minimized` twice in the disjunction. -/
def scene_surface_state_set (conn : Connection) (b : Bridge)
    (new_state : MirWindowState) : Bridge × List Op :=
  let state := b.cached.state.updated_from new_state
  let r1 := inform_client_of_window_state conn b state
  let lower :=
    if new_state = MirWindowState.minimized ∨ new_state = MirWindowState.minimized then
      [Op.configure_window none none none (some .below)]
    else []
  (r1.1, r1.2 ++ lower)

/-- The free function `set_position`: with a parent, a north-west-anchored
aux-rect placement relative to the parent's content origin; without one,
an absolute top-left.  `placement_hints` is the zero-initialized
`MirPlacementHints{}`. -/
def set_position (parent : Option SurfaceInfo) (top_left : Point)
    (spec : SurfaceSpec) : SurfaceSpec :=
  match parent with
  | some p =>
      let local_top_left : Point :=
        ⟨top_left.x - p.top_left.x - p.content_offset.dx,
         top_left.y - p.top_left.y - p.content_offset.dy⟩
      { spec with
          aux_rect := some ⟨local_top_left, ⟨1, 1⟩⟩,
          placement_hints := some 0,
          surface_placement_gravity := some .northwest,
          aux_rect_placement_gravity := some .northwest }
  | none => { spec with top_left := some top_left }

/-- An `xcb_configure_request_event_t`: which fields the value mask
flags, and the requested values. -/
structure ConfigureRequestEvent where
  mask_x : Bool
  mask_y : Bool
  mask_width : Bool
  mask_height : Bool
  x : Int
  y : Int
  width : Int
  height : Int
deriving DecidableEq

/-- Embeds `XWaylandSurface::configure_request`: with a live scene surface the
request becomes a (no-op-filtered) scene-graph modification; without one
it is honored directly against the legacy window and flushed.  Neither
branch mutates the cached geometry. -/
def configure_request (b : Bridge) (ev : ConfigureRequestEvent) : Bridge × List Op :=
  match b.scene_surface with
  | some s =>
      let content_offset := s.content_offset
      let old_position := s.top_left.addDisp content_offset
      let new_position : Point :=
        ⟨if ev.mask_x then ev.x else old_position.x,
         if ev.mask_y then ev.y else old_position.y⟩
      let old_size := s.content_size
      let new_size : Size :=
        ⟨if ev.mask_width then ev.width else old_size.width,
         if ev.mask_height then ev.height else old_size.height⟩
      let mods0 := SurfaceSpec.empty
      let mods1 :=
        if old_position ≠ new_position then
          set_position s.parent (new_position.subDisp content_offset) mods0
        else mods0
      let mods2 :=
        if old_size ≠ new_size then
          { mods1 with width := some new_size.width, height := some new_size.height }
        else mods1
      (b, if mods2.is_empty then [] else [Op.modify_surface mods2])
  | none =>
      let top_left : Point :=
        ⟨if ev.mask_x then ev.x else b.cached.top_left.x,
         if ev.mask_y then ev.y else b.cached.top_left.y⟩
      let size : Size :=
        ⟨if ev.mask_width then ev.width else b.cached.size.width,
         if ev.mask_height then ev.height else b.cached.size.height⟩
      (b, [Op.configure_window (some top_left) (some size) none none, Op.flush])

/-- The surrounding `XWaylandWM` as seen from one bridge:
`get_wm_surface` yields, for a window id, `some` of that bridge's
(possibly dead) weak scene surface when a bridge exists, `none`
otherwise; plus the currently focused window. -/
structure Wm where
  wm_surfaces : Nat → Option (Option SceneSurface)
  focused_window : Option Nat

/-- The `get_scene_surface_from` lambda in `is_transient_for`: returns
the scene surface of the named window's bridge, or `none` when either
the bridge or its scene surface is missing. -/
def get_scene_surface_from (wm : Wm) (w : Nat) : Option SceneSurface :=
  match wm.wm_surfaces w with
  | some s => s
  | none => none

/-- Embeds `XWaylandSurface::pending_spec`: the lazily-created pending
specification. -/
def pending_spec_of (b : Bridge) : SurfaceSpec :=
  b.pending_spec.getD SurfaceSpec.empty

/-- Embeds `XWaylandSurface::is_transient_for` (0 is `XCB_WINDOW_NONE`):
resolves a parent scene surface, falling back to the focused window's
only when the reference was non-null, and records the result and the
positioning rule in the pending specification — nothing is applied
immediately and no protocol operation is issued. -/
def is_transient_for (wm : Wm) (b : Bridge) (transient_for : Nat) : Bridge :=
  let parent_scene_surface : Option SceneSurface :=
    if transient_for ≠ 0 then
      match get_scene_surface_from wm transient_for with
      | some s => some s
      | none =>
          match wm.focused_window with
          | some fw => get_scene_surface_from wm fw
          | none => none
    else none
  let spec0 := { pending_spec_of b with parent := some parent_scene_surface }
  let spec1 := set_position (parent_scene_surface.map SceneSurface.info) b.cached.top_left spec0
  { b with pending_spec := some spec1 }

/-- The property replies the X server returns when `attach_wl_surface`
batch-issues all property reads; `none` selects the handler's error
path. -/
structure PropertyReplies where
  wm_name : Option String
  wm_class : Option String
  transient_for : Option Nat
  net_wm_name : Option String
  wm_protocols : Option (List Nat)

/-- The effect of running every property handler of `property_handlers`
(in the map's atom order: `WM_NAME`, `WM_CLASS`, `WM_TRANSIENT_FOR`,
then the runtime atoms `_NET_WM_NAME` and `WM_PROTOCOLS`). -/
def apply_property_replies (wm : Wm) (r : PropertyReplies) (b : Bridge) : Bridge :=
  let b1 := match r.wm_name with
    | some v => { b with pending_spec := some { pending_spec_of b with name := some v } }
    | none => b
  let b2 := match r.wm_class with
    | some v => { b1 with pending_spec := some { pending_spec_of b1 with application_id := some v } }
    | none => b1
  let b3 := is_transient_for wm b2 (r.transient_for.getD 0)
  let b4 := match r.net_wm_name with
    | some v => { b3 with pending_spec := some { pending_spec_of b3 with name := some v } }
    | none => b3
  match r.wm_protocols with
  | some v => { b4 with cached := { b4.cached with supported_wm_protocols := v } }
  | none => { b4 with cached := { b4.cached with supported_wm_protocols := [] } }

/-- Embeds `XWaylandSurface::attach_wl_surface`: faults (before touching the
observer, session or scene-surface references) when any of them is
already present; otherwise records the observer and session, builds the
creation parameters from the cached state, runs all property reads,
consumes the pending specification into the parameters, creates the
surface (`created` is the shell's reply), pushes the window state,
configures the legacy window to the surface's geometry, and only then
publishes the scene-surface reference. -/
def attach_wl_surface (conn : Connection) (wm : Wm) (b : Bridge)
    (replies : PropertyReplies) (created : SceneSurface) : OpResult :=
  if b.has_observer || b.has_session || b.scene_surface.isSome then
    ⟨b, [], some ("XWaylandSurface::set_wl_surface() called multiple times")⟩
  else
    let state := { b.cached.state with withdrawn := false }
    let params0 : CreationParams :=
      ⟨b.cached.top_left, b.cached.size, state.mir_window_state,
       !b.cached.override_redirect, none⟩
    let b1 := { b with has_observer := true, has_session := true }
    let b2 := apply_property_replies wm replies b1
    let params := { params0 with spec := b2.pending_spec }
    let b3 := { b2 with pending_spec := none }
    let r1 := inform_client_of_window_state conn b3 state
    let b4 := { r1.1 with scene_surface := some created }
    ⟨b4,
     [Op.create_surface params] ++ r1.2 ++
       [Op.configure_window (some (created.top_left.addDisp created.content_offset))
         (some created.content_size) none (some .above)],
     none⟩

theorem WindowState.eq_iff : ∀ a b : WindowState, WindowState.eq a b = true ↔ a = b := by
  decide

theorem WindowState.eq_self : ∀ s : WindowState, WindowState.eq s s = true := by
  decide

/-- Whatever branch `inform_client_of_window_state` takes, the resulting
bridge is the input bridge with the cached state replaced (the equal case
replaces it with itself). -/
theorem inform_fst (conn : Connection) (b : Bridge) (s : WindowState) :
    (inform_client_of_window_state conn b s).1 =
      { b with cached := { b.cached with state := s } } := by
  unfold inform_client_of_window_state
  split
  · next h =>
      obtain rfl : s = b.cached.state := (WindowState.eq_iff s b.cached.state).mp h
      rfl
  · rfl

/-- Concrete atom cache for witnesses (any distinct values). -/
def conn0 : Connection :=
  { wm_state := 39, net_wm_state := 40, net_wm_desktop := 41,
    net_wm_state_hidden := 35, net_wm_state_maximized_horz := 36,
    net_wm_state_maximized_vert := 37, net_wm_state_fullscreen := 38,
    wm_protocols := 42, wm_take_focus := 43, wm_delete_window := 44,
    net_wm_name := 45 }

/-- Concrete bridge for witnesses: a freshly created window at (10,20),
size 300x200, restored, no scene surface attached. -/
def b0 : Bridge :=
  { cached :=
      { override_redirect := false, top_left := ⟨10, 20⟩, size := ⟨300, 200⟩,
        supported_wm_protocols := [], state := ⟨false, false, false, false⟩ },
    scene_surface := none, has_observer := false, has_session := false,
    pending_spec := none }

/-- C3: `inform_client_of_window_state` is idempotent by equality — an
equal state causes no writes, no flush and no state change; an unequal
one updates the cached state and writes `WM_STATE`, writes or (when
withdrawn) deletes `_NET_WM_STATE`, and flushes; a repeated call with the
same value issues no further operations. -/
theorem c3_inform_client_idempotent (conn : Connection) (b : Bridge) (s : WindowState) :
    (WindowState.eq s b.cached.state = true →
      inform_client_of_window_state conn b s = (b, [])) ∧
    (WindowState.eq s b.cached.state = false →
      inform_client_of_window_state conn b s =
        ({ b with cached := { b.cached with state := s } },
         [Op.set_property_u32 conn.wm_state [wm_state_code s, 0]] ++
         (if s.withdrawn then [Op.delete_property conn.net_wm_state]
          else [Op.set_property_atoms conn.net_wm_state (net_wm_states_for conn s)]) ++
         [Op.flush])) ∧
    (inform_client_of_window_state conn
      (inform_client_of_window_state conn b s).1 s).2 = [] := by
  refine ⟨?_, ?_, ?_⟩
  · intro h
    unfold inform_client_of_window_state
    rw [if_pos h]
  · intro h
    unfold inform_client_of_window_state
    rw [if_neg (by simp [h])]
  · rw [inform_fst]
    simp [inform_client_of_window_state, WindowState.eq_self]

/-- Witness for C3 at a concrete unequal state (restored → fullscreen). -/
theorem c3_inform_client_idempotent_witness :
    inform_client_of_window_state conn0 b0 ⟨false, false, false, true⟩ =
      ({ b0 with cached := { b0.cached with state := ⟨false, false, false, true⟩ } },
       [Op.set_property_u32 conn0.wm_state [wm_state_code ⟨false, false, false, true⟩, 0]] ++
       (if (⟨false, false, false, true⟩ : WindowState).withdrawn then
          [Op.delete_property conn0.net_wm_state]
        else
          [Op.set_property_atoms conn0.net_wm_state
            (net_wm_states_for conn0 ⟨false, false, false, true⟩)]) ++
       [Op.flush]) ∧
    (inform_client_of_window_state conn0
      (inform_client_of_window_state conn0 b0 ⟨false, false, false, true⟩).1
      ⟨false, false, false, true⟩).2 = [] :=
  ⟨(c3_inform_client_idempotent conn0 b0 ⟨false, false, false, true⟩).2.1 (by decide),
   (c3_inform_client_idempotent conn0 b0 ⟨false, false, false, true⟩).2.2⟩

/-- C4: `WM_CHANGE_STATE` with a value other than NORMAL (1) or
ICONIC (3) faults, leaving the bridge untouched and issuing no
operation; NORMAL clears minimized and ICONIC sets it. -/
theorem c4_wm_change_state (conn : Connection) (b : Bridge) (d : Nat) :
    (d ≠ 1 → d ≠ 3 →
      wm_change_state_client_message conn b d =
        ⟨b, [], some ("WM_CHANGE_STATE client message sent invalid state")⟩) ∧
    (wm_change_state_client_message conn b 1).bridge =
      { b with cached := { b.cached with state :=
          { b.cached.state with minimized := false } } } ∧
    (wm_change_state_client_message conn b 1).error = none ∧
    (wm_change_state_client_message conn b 3).bridge =
      { b with cached := { b.cached with state :=
          { b.cached.state with minimized := true } } } ∧
    (wm_change_state_client_message conn b 3).error = none := by
  refine ⟨?_, ?_, rfl, ?_, rfl⟩
  · intro h1 h3
    unfold wm_change_state_client_message
    rw [if_neg h1, if_neg h3]
  · exact inform_fst conn b _
  · exact inform_fst conn b _

/-- Witness for C4 at the forbidden WITHDRAWN value 0 (and at ICONIC). -/
theorem c4_wm_change_state_witness :
    wm_change_state_client_message conn0 b0 0 =
      ⟨b0, [], some ("WM_CHANGE_STATE client message sent invalid state")⟩ ∧
    (wm_change_state_client_message conn0 b0 3).bridge =
      { b0 with cached := { b0.cached with state :=
          { b0.cached.state with minimized := true } } } :=
  ⟨(c4_wm_change_state conn0 b0 0).1 (by decide) (by decide),
   (c4_wm_change_state conn0 b0 3).2.2.2.1⟩

theorem apply_property_zero (conn : Connection) (a : Nat) (ws : WindowState) :
    apply_property conn a ws 0 = ws := rfl

/-- Toggling the same target property twice restores the window state,
whichever flag (or the dummy) the atom selects. -/
theorem apply_property_toggle_twice (conn : Connection) (s : WindowState) (p : Nat) :
    apply_property conn 2 (apply_property conn 2 s p) p = s := by
  obtain ⟨w, m, x, f⟩ := s
  unfold apply_property apply_action_to
  by_cases h0 : p = 0
  · simp [h0]
  · by_cases hh : p = conn.net_wm_state_hidden
    · subst hh; simp [h0]
    · by_cases hx : p = conn.net_wm_state_maximized_horz
      · subst hx; simp [h0, hh]
      · by_cases hf : p = conn.net_wm_state_fullscreen
        · subst hf; simp [h0, hh, hx]
        · simp [h0, hh, hx, hf]

/-- The bridge after `net_wm_state_client_message` is the input with the
cached state replaced by the fold of the two property slots. -/
theorem net_wm_state_fst (conn : Connection) (b : Bridge) (a p1 p2 : Nat) :
    (net_wm_state_client_message conn b a p1 p2).1 =
      { b with cached := { b.cached with
          state := apply_property conn a (apply_property conn a b.cached.state p1) p2 } } :=
  inform_fst conn b _

/-- C5: a `_NET_WM_STATE` ADD of the fullscreen atom on a restored
window sets exactly the fullscreen flag; and two successive TOGGLE
messages on the same (single) target property restore the bridge. -/
theorem c5_net_wm_state_add_fullscreen_toggle (conn : Connection) (b : Bridge) (p : Nat) :
    (b.cached.state.minimized = false → b.cached.state.maximized = false →
     b.cached.state.fullscreen = false →
     conn.net_wm_state_fullscreen ≠ 0 →
     conn.net_wm_state_fullscreen ≠ conn.net_wm_state_hidden →
     conn.net_wm_state_fullscreen ≠ conn.net_wm_state_maximized_horz →
      (net_wm_state_client_message conn b 1 conn.net_wm_state_fullscreen 0).1.cached.state =
        { b.cached.state with fullscreen := true }) ∧
    (net_wm_state_client_message conn
      (net_wm_state_client_message conn b 2 p 0).1 2 p 0).1 = b := by
  constructor
  · intro hm hx hf h0 hh hz
    rw [net_wm_state_fst]
    show apply_property conn 1
        (apply_property conn 1 b.cached.state conn.net_wm_state_fullscreen) 0 =
      { b.cached.state with fullscreen := true }
    rw [apply_property_zero]
    unfold apply_property
    rw [if_neg h0, if_neg hh, if_neg hz, if_pos rfl]
    rfl
  · rw [net_wm_state_fst, net_wm_state_fst]
    simp [apply_property_zero, apply_property_toggle_twice]

/-- Witness for C5 on the restored bridge, toggling the hidden atom. -/
theorem c5_net_wm_state_witness :
    (net_wm_state_client_message conn0 b0 1 conn0.net_wm_state_fullscreen 0).1.cached.state =
      { b0.cached.state with fullscreen := true } ∧
    (net_wm_state_client_message conn0
      (net_wm_state_client_message conn0 b0 2 35 0).1 2 35 0).1 = b0 :=
  ⟨(c5_net_wm_state_add_fullscreen_toggle conn0 b0 35).1
      (by decide) (by decide) (by decide) (by decide) (by decide) (by decide),
   (c5_net_wm_state_add_fullscreen_toggle conn0 b0 35).2⟩

/-- C6, evaluated at the failing input: the hidden native state makes the
updated window state minimized, yet `scene_surface_state_set` issues no
stack-mode-BELOW configure for it (its condition tests
`mir_window_state_minimized` twice), while it does for the minimized
native state. -/
theorem c6_hidden_does_not_lower_stacking :
    (b0.cached.state.updated_from MirWindowState.hidden).minimized = true ∧
    ((scene_surface_state_set conn0 b0 MirWindowState.hidden).2.all
      (fun op => op ≠ Op.configure_window none none none (some StackMode.below))) = true ∧
    ((scene_surface_state_set conn0 b0 MirWindowState.minimized).2.contains
      (Op.configure_window none none none (some StackMode.below))) = true := by
  decide

/-- A configure request flagging only the X coordinate, asking for x = 50. -/
def ev_x_only : ConfigureRequestEvent :=
  ⟨true, false, false, false, 50, 0, 0, 0⟩

/-- C7 counterexample: with no scene surface attached and only
`XCB_CONFIG_WINDOW_X` flagged, `configure_request` returns the bridge
unchanged — the cached X coordinate stays 10 although the request asked
for 50 — while issuing the one configure call and a flush. -/
theorem c7_cached_x_not_updated :
    configure_request b0 ev_x_only =
      (b0, [Op.configure_window (some ⟨50, 20⟩) (some ⟨300, 200⟩) none none, Op.flush]) ∧
    b0.cached.top_left.x = 10 ∧ ev_x_only.x = 50 ∧ (50 : Int) ≠ 10 := by
  refine ⟨rfl, rfl, rfl, by decide⟩

/-- C7 as amended: a configure request flagging only X, with no scene
surface, leaves the whole bridge (all cached geometry included)
unchanged and issues exactly one legacy configure call — the new X with
the previously cached Y, width and height — followed by a flush. -/
theorem c7_configure_request_x_only (b : Bridge) (ev : ConfigureRequestEvent) :
    b.scene_surface = none →
    ev.mask_x = true → ev.mask_y = false → ev.mask_width = false → ev.mask_height = false →
    configure_request b ev =
      (b, [Op.configure_window (some ⟨ev.x, b.cached.top_left.y⟩)
            (some b.cached.size) none none, Op.flush]) := by
  intro hs hx hy hw hh
  unfold configure_request
  rw [hs]
  simp [hx, hy, hw, hh]

/-- Witness for the amended C7 at the concrete bridge and request. -/
theorem c7_configure_request_x_only_witness :
    configure_request b0 ev_x_only =
      (b0, [Op.configure_window (some ⟨ev_x_only.x, b0.cached.top_left.y⟩)
            (some b0.cached.size) none none, Op.flush]) :=
  c7_configure_request_x_only b0 ev_x_only rfl rfl rfl rfl rfl

/-- C8: with a non-null transient-for reference whose window resolves to
no scene surface, and a focused window that does resolve, the resolver
falls back to the focused window's surface, records it (with the
north-west aux-rect placement) in the pending specification only, and
leaves the cached state and scene-surface reference alone; a null
reference yields no parent and an absolute top-left, with no fallback. -/
theorem c8_transient_for_fallback (wm : Wm) (b : Bridge) (t : Nat) :
    (t ≠ 0 → get_scene_surface_from wm t = none →
     ∀ fw ss, wm.focused_window = some fw →
       get_scene_surface_from wm fw = some ss →
       (is_transient_for wm b t).cached = b.cached ∧
       (is_transient_for wm b t).scene_surface = b.scene_surface ∧
       ∃ spec, (is_transient_for wm b t).pending_spec = some spec ∧
         spec.parent = some (some ss) ∧
         spec.aux_rect = some
           ⟨⟨b.cached.top_left.x - ss.top_left.x - ss.content_offset.dx,
             b.cached.top_left.y - ss.top_left.y - ss.content_offset.dy⟩, ⟨1, 1⟩⟩ ∧
         spec.surface_placement_gravity = some Gravity.northwest ∧
         spec.aux_rect_placement_gravity = some Gravity.northwest) ∧
    (∃ spec, (is_transient_for wm b 0).pending_spec = some spec ∧
       spec.parent = some none ∧
       spec.top_left = some b.cached.top_left) := by
  constructor
  · intro ht hnone fw ss hfw hss
    unfold is_transient_for
    rw [if_pos ht, hnone, hfw]
    simp only [hss]
    refine ⟨trivial, trivial, _, rfl, rfl, rfl, rfl, rfl⟩
  · unfold is_transient_for
    rw [if_neg (by simp)]
    exact ⟨_, rfl, rfl, rfl⟩

/-- A focused window's scene surface for witnesses. -/
def ss0 : SceneSurface :=
  { top_left := ⟨100, 100⟩, content_offset := ⟨5, 5⟩, content_size := ⟨400, 300⟩,
    state := MirWindowState.restored, parent := none }

/-- Concrete window manager: window 7 has a bridge but no scene surface,
window 9 is focused and has scene surface `ss0`. -/
def wm0 : Wm :=
  { wm_surfaces := fun w =>
      if w = 7 then some none else if w = 9 then some (some ss0) else none,
    focused_window := some 9 }

/-- Witness for C8: window transient for 7 (bridge without surface)
resolves to focused window 9's surface. -/
theorem c8_transient_for_fallback_witness :
    (is_transient_for wm0 b0 7).cached = b0.cached ∧
    (is_transient_for wm0 b0 7).scene_surface = b0.scene_surface ∧
    ∃ spec, (is_transient_for wm0 b0 7).pending_spec = some spec ∧
      spec.parent = some (some ss0) ∧
      spec.aux_rect = some
        ⟨⟨b0.cached.top_left.x - ss0.top_left.x - ss0.content_offset.dx,
          b0.cached.top_left.y - ss0.top_left.y - ss0.content_offset.dy⟩, ⟨1, 1⟩⟩ ∧
      spec.surface_placement_gravity = some Gravity.northwest ∧
      spec.aux_rect_placement_gravity = some Gravity.northwest :=
  (c8_transient_for_fallback wm0 b0 7).1 (by decide) rfl 9 ss0 rfl rfl

/-- A guard hit in `attach_wl_surface` returns the fault with the bridge
untouched and nothing issued. -/
theorem attach_guard_true (conn : Connection) (wm : Wm) (b : Bridge)
    (r : PropertyReplies) (c : SceneSurface)
    (h : (b.has_observer || b.has_session || b.scene_surface.isSome) = true) :
    attach_wl_surface conn wm b r c =
      ⟨b, [], some ("XWaylandSurface::set_wl_surface() called multiple times")⟩ := by
  unfold attach_wl_surface
  rw [if_pos h]

/-- A successful `attach_wl_surface` publishes the created scene
surface. -/
theorem attach_success_scene (conn : Connection) (wm : Wm) (b : Bridge)
    (r : PropertyReplies) (c : SceneSurface)
    (h : (b.has_observer || b.has_session || b.scene_surface.isSome) = false) :
    (attach_wl_surface conn wm b r c).bridge.scene_surface = some c := by
  unfold attach_wl_surface
  rw [if_neg (by simp [h])]

/-- C9: `attach_wl_surface` faults — without touching the observer,
session or scene-surface references and without issuing any operation —
whenever any of those references from a prior attach is present; and
after any successful attach, every further call faults the same way. -/
theorem c9_attach_runs_once (conn : Connection) (wm : Wm) (b : Bridge)
    (r : PropertyReplies) (c : SceneSurface) :
    ((b.has_observer = true ∨ b.has_session = true ∨ b.scene_surface.isSome = true) →
      attach_wl_surface conn wm b r c =
        ⟨b, [], some ("XWaylandSurface::set_wl_surface() called multiple times")⟩) ∧
    ((attach_wl_surface conn wm b r c).error = none →
      ∀ r2 c2, attach_wl_surface conn wm (attach_wl_surface conn wm b r c).bridge r2 c2 =
        ⟨(attach_wl_surface conn wm b r c).bridge, [],
         some ("XWaylandSurface::set_wl_surface() called multiple times")⟩) := by
  constructor
  · intro h
    refine attach_guard_true conn wm b r c ?_
    rcases h with h | h | h <;> simp [h]
  · intro he r2 c2
    by_cases hg : (b.has_observer || b.has_session || b.scene_surface.isSome) = true
    · rw [attach_guard_true conn wm b r c hg] at he
      exact absurd he (by simp)
    · have hg' : (b.has_observer || b.has_session || b.scene_surface.isSome) = false := by
        cases hv : (b.has_observer || b.has_session || b.scene_surface.isSome) <;> simp_all
      have hsc := attach_success_scene conn wm b r c hg'
      exact attach_guard_true conn wm _ r2 c2 (by simp [hsc])

/-- Property replies for witnesses (every property absent). -/
def replies0 : PropertyReplies := ⟨none, none, none, none, none⟩

/-- Witness for C9: a bridge that already has an observer faults. -/
theorem c9_attach_runs_once_witness :
    attach_wl_surface conn0 wm0 { b0 with has_observer := true } replies0 ss0 =
      ⟨{ b0 with has_observer := true }, [],
       some ("XWaylandSurface::set_wl_surface() called multiple times")⟩ :=
  (c9_attach_runs_once conn0 wm0 { b0 with has_observer := true } replies0 ss0).1
    (Or.inl rfl)

/-- C10: a `_NET_WM_STATE` message whose first target atom is none of
hidden/maximized-horz/fullscreen behaves exactly as if that slot were the
skipped zero slot — the action lands on the dummy flag and the resulting
state comes from the recognized atoms alone — and the handler is total
(no fault path exists). -/
theorem c10_unrecognized_atom_inert (conn : Connection) (b : Bridge) (a p1 p2 : Nat) :
    (p1 ≠ conn.net_wm_state_hidden → p1 ≠ conn.net_wm_state_maximized_horz →
     p1 ≠ conn.net_wm_state_fullscreen →
       net_wm_state_client_message conn b a p1 p2 =
         net_wm_state_client_message conn b a 0 p2) ∧
    (∀ ws, apply_property conn a ws 0 = ws) := by
  constructor
  · intro h1 h2 h3
    have hp : apply_property conn a b.cached.state p1 = b.cached.state := by
      unfold apply_property
      by_cases h0 : p1 = 0
      · rw [if_pos h0]
      · rw [if_neg h0, if_neg h1, if_neg h2, if_neg h3]
    unfold net_wm_state_client_message
    rw [hp, apply_property_zero]
  · intro ws
    rfl

/-- Witness for C10 at the unrecognized atom 99. -/
theorem c10_unrecognized_atom_inert_witness :
    net_wm_state_client_message conn0 b0 1 99 0 =
      net_wm_state_client_message conn0 b0 1 0 0 ∧
    apply_property conn0 1 b0.cached.state 0 = b0.cached.state :=
  ⟨(c10_unrecognized_atom_inert conn0 b0 1 99 0).1 (by decide) (by decide) (by decide),
   (c10_unrecognized_atom_inert conn0 b0 1 99 0).2 b0.cached.state⟩

end XWayland
